import Mathlib

/-!
Shallow embedding of the comparison and configuration-evaluation engine of
the Ruffle test framework (`tests/framework/src/options.rs`), together with
proofs about its behaviour.

Machine integers of the source (`u8`, `u16`, `usize`) are embedded as `Nat`,
with an explicit `% 256` wherever the source narrows a wider value back to a
byte (`as u8`).  Pixel buffers (`image::RgbaImage::as_raw()`) are embedded as
`List Nat` of raw RGBA bytes in row-major order.  Fallible functions return
`Except`; the I/O side effects of `ImageComparison::test` (writing diagnostic
images) are captured as a list of `Artifact` values, and the `unwrap` panic in
`calculate_max_difference` is surfaced as a distinguished `TestOutcome`.
-/

set_option autoImplicit false

instance exceptDecidableEq {ε α : Type} [DecidableEq ε] [DecidableEq α] :
    DecidableEq (Except ε α)
  | .ok a, .ok b =>
      if h : a = b then .isTrue (by rw [h]) else .isFalse (by simp [h])
  | .ok _, .error _ => .isFalse (by simp)
  | .error _, .ok _ => .isFalse (by simp)
  | .error e, .error f =>
      if h : e = f then .isTrue (by rw [h]) else .isFalse (by simp [h])

namespace Ruffle

/-! ### Host platform attributes

`std::env::consts::{OS, ARCH, FAMILY}` are ambient globals in the source; the
embedding passes them explicitly, following the design note of the spec that the
evaluator should take the attribute source as a parameter. -/

structure HostEnv where
  os : String
  arch : String
  family : String
deriving DecidableEq

/-! ### Test expressions

`TestExpression` in the source wraps a string that is parsed and evaluated by
the external `cfg_expr` crate.  Modelled from the spec: the grammar of §4.5
(key/value equality predicates with `not`/`all`/`any` composition) is embedded
as an already-parsed tree, since the string parser lives in the external
crate.  `cfg_expr::Expression::eval` is stack-based over the postfix token
sequence and applies the predicate callback to every predicate occurrence
(no short-circuiting), so the callback of `TestExpression::evaluate` observes
every predicate; the embedding therefore collects all predicates of the tree
in order. -/

structure CfgPred where
  key : String
  val : String
deriving DecidableEq

inductive CfgExpr where
  | pred (p : CfgPred)
  | neg (e : CfgExpr)
  | all (a b : CfgExpr)
  | any (a b : CfgExpr)
deriving DecidableEq

/-- A predicate key recognised by the callback in `TestExpression::evaluate`:
`os`, `arch` or `family`. -/
def CfgPred.recognized (p : CfgPred) : Bool :=
  p.key = "os" || p.key = "arch" || p.key = "family"

/-- The predicate callback of `TestExpression::evaluate`: a recognised key is
compared by string equality against the host value, every other predicate
evaluates to `false` (and is recorded as unknown, see `evaluate`). -/
def CfgPred.evalB (env : HostEnv) (p : CfgPred) : Bool :=
  if p.key = "os" then p.val = env.os
  else if p.key = "arch" then p.val = env.arch
  else if p.key = "family" then p.val = env.family
  else false

/-- Evaluation of the parsed expression, as `cfg_expr::Expression::eval`
computes it with the callback above. -/
def CfgExpr.evalB (env : HostEnv) : CfgExpr → Bool
  | .pred p => p.evalB env
  | .neg e => !(e.evalB env)
  | .all a b => a.evalB env && b.evalB env
  | .any a b => a.evalB env || b.evalB env

/-- All predicate occurrences of the expression, in evaluation order. -/
def CfgExpr.preds : CfgExpr → List CfgPred
  | .pred p => [p]
  | .neg e => e.preds
  | .all a b => a.preds ++ b.preds
  | .any a b => a.preds ++ b.preds

/-- The predicates the callback records as unknown: those whose key is outside
the recognised set. -/
def CfgExpr.unknownPreds (e : CfgExpr) : List CfgPred :=
  e.preds.filter (fun p => !p.recognized)

inductive ExprError where
  | unknownPredicate (p : CfgPred)
deriving DecidableEq

/-- Embedding of `TestExpression::evaluate`: evaluate the expression with the callback; if
any predicate had an unrecognised key the `unknown_pred` slot was written (it
ends up holding the last such predicate in evaluation order) and an error is
returned instead of the boolean. -/
def TestExpression.evaluate (env : HostEnv) (e : CfgExpr) : Except ExprError Bool :=
  match e.unknownPreds.getLast? with
  | some p => .error (.unknownPredicate p)
  | none => .ok (e.evalB env)

/-! ### Images and the image difference engine -/

/-- An `image::RgbaImage`: dimensions plus the raw byte buffer returned by
`as_raw()` (row-major, 4 bytes per pixel).  The `image` crate maintains the
invariant `data.length = 4 * width * height`, stated as `wf` below where a
theorem needs it. -/
structure RgbaImage where
  width : Nat
  height : Nat
  data : List Nat
deriving DecidableEq

/-- The buffer invariant maintained by the `image` crate: full size, byte
entries. -/
def RgbaImage.wf (img : RgbaImage) : Prop :=
  img.data.length = 4 * img.width * img.height ∧ ∀ x ∈ img.data, x < 256

/-- Embedding of `calc_difference`: `(lhs as i16 - rhs as i16).unsigned_abs() as u8`.  The
subtraction is widened to `i16`, so no underflow; the final `as u8` narrows
modulo 256. -/
def calc_difference (lhs rhs : Nat) : Nat :=
  (Int.natAbs ((lhs : Int) - (rhs : Int))) % 256

/-- The body of `ImageComparison::calculate_difference_data`:
`expected.as_raw().chunks_exact(4)` zipped with `actual.as_raw().chunks_exact(4)`,
flat-mapped to the four per-channel differences.  `chunks_exact` drops any
trailing partial chunk and `zip` stops at the shorter iterator, which the
recursion mirrors. -/
def diffBytes : List Nat → List Nat → List Nat
  | e0 :: e1 :: e2 :: e3 :: es, a0 :: a1 :: a2 :: a3 :: as =>
      calc_difference e0 a0 :: calc_difference e1 a1 ::
        calc_difference e2 a2 :: calc_difference e3 a3 :: diffBytes es as
  | _, _ => []

/-- The `is_alpha_different` out-parameter of `calculate_difference_data`: set
iff some zipped pixel pair has differing alpha bytes (`cmp_chunk[3] != data_chunk[3]`),
independent of any tolerance. -/
def alphaDiffers : List Nat → List Nat → Bool
  | _ :: _ :: _ :: e3 :: es, _ :: _ :: _ :: a3 :: as =>
      (e3 ≠ a3 : Bool) || alphaDiffers es as
  | _, _ => false

/-- Embedding of `ImageComparison::calculate_difference_data`, returning the difference
buffer together with the `is_alpha_different` flag it writes through its
`&mut bool` parameter. -/
def ImageComparison.calculate_difference_data (actual expected : RgbaImage) :
    List Nat × Bool :=
  (diffBytes expected.data actual.data, alphaDiffers expected.data actual.data)

/-- Embedding of `ImageComparison::calculate_outliers`: over `chunks_exact(4)` of the
difference buffer, sum the indicators `colors[i] > tolerance` of the four
channels. -/
def ImageComparison.calculate_outliers : List Nat → Nat → Nat
  | c0 :: c1 :: c2 :: c3 :: rest, tolerance =>
      (if tolerance < c0 then 1 else 0) + (if tolerance < c1 then 1 else 0) +
        (if tolerance < c2 then 1 else 0) + (if tolerance < c3 then 1 else 0) +
        ImageComparison.calculate_outliers rest tolerance
  | _, _ => 0

/-- Embedding of `ImageComparison::calculate_max_difference`: each complete chunk is mapped
to `colors[0].max(colors[1]).max(colors[2]).max(colors[3])` and the results
are folded with `.max()`.  The source ends with `.unwrap()`, which panics when
there is no complete chunk; the embedding returns `none` there. -/
def ImageComparison.calculate_max_difference : List Nat → Option Nat
  | c0 :: c1 :: c2 :: c3 :: rest =>
      let m := max (max (max c0 c1) c2) c3
      match ImageComparison.calculate_max_difference rest with
      | none => some m
      | some m2 => some (max m m2)
  | _ => none

/-! ### Comparison configuration -/

/-- Modelled from the spec: the `ImageTrigger` enum lives in
`tests/framework/src/image_trigger.rs`, which is not among the provided
sources.  The spec (§3) only distinguishes the manual "on explicit command"
kind (`FsCommand` in `options.rs`), exempt from the uniqueness rule, from the
other non-manual kinds; two further kinds stand for those. -/
inductive ImageTrigger where
  | fsCommand
  | lastFrame
  | specificIteration
deriving DecidableEq, Fintype

/-- Embedding of `ImageComparisonCheck`: one leaf rule of the advanced mode. -/
structure ImageComparisonCheck where
  tolerance : Nat
  max_outliers : Nat
  filter : Option CfgExpr
deriving DecidableEq

/-- Embedding of `ImageComparison`: optional simple tolerance / max-outlier fields, the
advanced checks list, and the trigger. -/
structure ImageComparison where
  tolerance : Option Nat
  max_outliers : Option Nat
  checks : List ImageComparisonCheck
  trigger : ImageTrigger
deriving DecidableEq

/-- The errors `ImageComparison::test` reports (each an `anyhow!` message in
the source, embedded as a structured value carrying the same data). -/
inductive TestError where
  /-- Message: Image NAME failed: Both simple and advanced checks are defined. -/
  | bothSimpleAndAdvanced (name : String)
  /-- Message: NAME image is not the right size. Expected = WxH, actual = WxH. -/
  | sizeMismatch (name : String)
      (expectedWidth expectedHeight actualWidth actualHeight : Nat)
  /-- A filter expression failed to evaluate; propagated via `?` unchanged. -/
  | filterError (e : ExprError)
  /-- Message: Image NAME check i failed: Number of outliers (o) is bigger
  than allowed limit of m. Max difference is d -/
  | checkFailed (name : String) (index outliers maxOutliers maxDifference : Nat)
  /-- Message: Image NAME failed: No checks executed. -/
  | noChecksExecuted (name : String)
deriving DecidableEq

/-- Outcome of one run of `ImageComparison::test`; `panicked` marks the
`.max().unwrap()` panic reachable on an empty difference buffer. -/
inductive TestOutcome where
  | ok
  | err (e : TestError)
  | panicked
deriving DecidableEq

/-- The diagnostic images `ImageComparison::test` writes on failure. -/
inductive Artifact where
  | actualImage
  | differenceColor
  | differenceAlpha
deriving DecidableEq

/-- Embedding of `ImageComparison::checks` (named `resolveChecks` here because the field of
the same name exists): simple fields together with a non-empty checks list is
an error; otherwise a non-empty checks list is used as-is, and the simple
fields (defaulted to zero when unset) form one implicit check. -/
def ImageComparison.resolveChecks (c : ImageComparison) :
    Except String (List ImageComparisonCheck) :=
  let has_simple_check := c.tolerance.isSome || c.max_outliers.isSome
  if has_simple_check && !c.checks.isEmpty then
    .error "Both simple and advanced checks are defined"
  else if !c.checks.isEmpty then
    .ok c.checks
  else
    .ok [{ tolerance := c.tolerance.getD 0, max_outliers := c.max_outliers.getD 0,
           filter := none }]

/-- The per-check loop of `ImageComparison::test` (the `for (i, check) in
checks.iter().enumerate()` body plus the trailing `any_check_executed` test),
with the written diagnostic images accumulated explicitly. -/
def runChecks (env : HostEnv) (name : String) (differenceData : List Nat)
    (isAlphaDifferent : Bool) (knownFailure : Bool) :
    List ImageComparisonCheck → Nat → Bool → TestOutcome × List Artifact
  | [], _, anyCheckExecuted =>
      if anyCheckExecuted then (.ok, [])
      else (.err (.noChecksExecuted name), [])
  | check :: rest, i, anyCheckExecuted =>
      match (match check.filter with
             | some f => TestExpression.evaluate env f
             | none => Except.ok true) with
      | .error e => (.err (.filterError e), [])
      | .ok false =>
          runChecks env name differenceData isAlphaDifferent knownFailure rest
            (i + 1) anyCheckExecuted
      | .ok true =>
          let outliers := ImageComparison.calculate_outliers differenceData check.tolerance
          let max_outliers := check.max_outliers
          match ImageComparison.calculate_max_difference differenceData with
          | none => (.panicked, [])
          | some max_difference =>
              if outliers ≤ max_outliers then
                runChecks env name differenceData isAlphaDifferent knownFailure rest
                  (i + 1) true
              else
                (.err (.checkFailed name i outliers max_outliers max_difference),
                  (if knownFailure then [] else [.actualImage, .differenceColor]) ++
                    (if isAlphaDifferent && !knownFailure then [.differenceAlpha] else []))

/-- Embedding of `ImageComparison::test`.  Side effects (`write_image`, `println!`) are
dropped except for the written images, returned as the `Artifact` list in
write order: the actual image (suppressed when `known_failure`), then on a
failing check the colour difference image and, if alpha differed, the alpha
difference image. -/
def ImageComparison.test (c : ImageComparison) (env : HostEnv) (name : String)
    (actual_image expected_image : RgbaImage) (known_failure : Bool) :
    TestOutcome × List Artifact :=
  let saveActual : List Artifact := if known_failure then [] else [.actualImage]
  if actual_image.width ≠ expected_image.width ∨
      actual_image.height ≠ expected_image.height then
    (.err (.sizeMismatch name expected_image.width expected_image.height
        actual_image.width actual_image.height), saveActual)
  else
    let dd := ImageComparison.calculate_difference_data actual_image expected_image
    match c.resolveChecks with
    | .error _ => (.err (.bothSimpleAndAdvanced name), [])
    | .ok checks => runChecks env name dd.1 dd.2 known_failure checks 0 false

/-! ### TestOptions validation -/

inductive ValidateError where
  /-- Message: Multiple captures are set to trigger T. This likely is not intended! -/
  | duplicateTrigger (t : ImageTrigger)
deriving DecidableEq

/-- The root configuration, restricted to the field `validate` reads.  The
remaining `TestOptions` fields (player options, fonts, approximations, flags)
are plain data handed to external collaborators and are not consulted by
`validate`.  The `HashMap<String, ImageComparison>` is embedded as an
association list in some iteration order; `validate` iterates `values()`. -/
structure TestOptions where
  image_comparisons : List (String × ImageComparison)
deriving DecidableEq

/-- The loop of `TestOptions::validate` with its `seen_triggers` hash set:
`comparison.trigger != FsCommand && !seen_triggers.insert(trigger)` — the
insert happens only for non-`FsCommand` triggers, and an already-present
trigger is an error. -/
def validateLoop (seen : List ImageTrigger) :
    List (String × ImageComparison) → Except ValidateError Unit
  | [] => .ok ()
  | (_, comparison) :: rest =>
      if comparison.trigger ≠ .fsCommand ∧ comparison.trigger ∈ seen then
        .error (.duplicateTrigger comparison.trigger)
      else
        validateLoop
          (if comparison.trigger ≠ .fsCommand then comparison.trigger :: seen else seen)
          rest

/-- Embedding of `TestOptions::validate`. -/
def TestOptions.validate (o : TestOptions) : Except ValidateError Unit :=
  if !o.image_comparisons.isEmpty then validateLoop [] o.image_comparisons
  else .ok ()

/-- Number of comparisons in the list using trigger `t` (specification device
for `validate`). -/
def countTrigger (l : List (String × ImageComparison)) (t : ImageTrigger) : Nat :=
  l.countP (fun p => decide (p.2.trigger = t))

/-! ### The numeric approximator

`Approximations::compare` delegates to the `relative_eq!` macro of the
external `approx` crate.  Modelled from the spec and the documented
`RelativeEq for f64` semantics: exact equality short-circuit, then absolute
epsilon, then relative tolerance against the larger magnitude.  `f64` values
are embedded as exact rationals (the claims under proof involve only small
dyadic-exact comparisons, no NaN or infinity, where the rational computation
agrees with the `f64` one); the defaults for omitted parameters are
`f64::EPSILON = 2⁻⁵²`. -/

def defaultEpsilon : ℚ := 1 / 2 ^ 52

def defaultMaxRelative : ℚ := 1 / 2 ^ 52

/-- Embedding of `RelativeEq::relative_eq` for `f64` (external `approx` crate), over exact
rationals. -/
def relativeEqQ (a b epsilon max_relative : ℚ) : Bool :=
  if a = b then true
  else if |a - b| ≤ epsilon then true
  else |a - b| ≤ (max |a| |b|) * max_relative

/-- Embedding of `Approximations`: optional epsilon, optional max-relative, plus the raw
number-pattern strings (compiled by the external `regex` crate, unused
here). -/
structure Approximations where
  number_patterns : List String
  epsilon : Option ℚ
  max_relative : Option ℚ
deriving DecidableEq

/-- The failure value of `Approximations::compare`: "Approximation failed:
expected .., found .., Episilon = .., Max Relative = ..". -/
structure ApproximationError where
  expected : ℚ
  actual : ℚ
  epsilon : Option ℚ
  max_relative : Option ℚ
deriving DecidableEq

/-- Embedding of `Approximations::compare`: four-way dispatch on which tolerance parameters
are present, each missing parameter falling back to the `relative_eq!`
default. -/
def Approximations.compare (ap : Approximations) (actual expected : ℚ) :
    Except ApproximationError Unit :=
  let result :=
    match ap.epsilon, ap.max_relative with
    | some epsilon, some max_relative => relativeEqQ actual expected epsilon max_relative
    | some epsilon, none => relativeEqQ actual expected epsilon defaultMaxRelative
    | none, some max_relative => relativeEqQ actual expected defaultEpsilon max_relative
    | none, none => relativeEqQ actual expected defaultEpsilon defaultMaxRelative
  if result then .ok ()
  else .error { expected := expected, actual := actual,
                epsilon := ap.epsilon, max_relative := ap.max_relative }

/-! ### Concrete inputs used by the example-based theorems -/

/-- A concrete host, as the examples in the spec assume (`os = "linux"`, `x86_64`). -/
def hostLinux : HostEnv := { os := "linux", arch := "x86_64", family := "unix" }

/-- 2×2 expected image: four identical pixels `(0, 0, 100, 255)`. -/
def imgExpected2x2 : RgbaImage :=
  { width := 2, height := 2,
    data := [0, 0, 100, 255, 0, 0, 100, 255, 0, 0, 100, 255, 0, 0, 100, 255] }

/-- 2×2 actual image: differs from `imgExpected2x2` only in the blue channel
of the first pixel, by 10. -/
def imgActual2x2 : RgbaImage :=
  { width := 2, height := 2,
    data := [0, 0, 110, 255, 0, 0, 100, 255, 0, 0, 100, 255, 0, 0, 100, 255] }

/-- Simple-mode comparison with tolerance 5, max-outliers 0. -/
def cmpSimple5 : ImageComparison :=
  { tolerance := some 5, max_outliers := some 0, checks := [], trigger := .lastFrame }

/-- Simple-mode comparison with tolerance 15, max-outliers 0. -/
def cmpSimple15 : ImageComparison :=
  { tolerance := some 15, max_outliers := some 0, checks := [], trigger := .lastFrame }

/-- A 0×0 image: the `image` crate happily constructs it, and its raw buffer
is empty. -/
def imgEmpty : RgbaImage := { width := 0, height := 0, data := [] }

/-- A 1×1 image (used to exhibit a dimension mismatch). -/
def imgOne1x1 : RgbaImage := { width := 1, height := 1, data := [0, 0, 100, 255] }

/-- A comparison mixing a simple field with a non-empty checks list. -/
def cmpMixed : ImageComparison :=
  { tolerance := some 3, max_outliers := none,
    checks := [{ tolerance := 0, max_outliers := 0, filter := none }],
    trigger := .lastFrame }

/-- An advanced-mode comparison whose sole check is gated off on
`hostLinux` (its filter tests `os = "plan9"`). -/
def cmpGated : ImageComparison :=
  { tolerance := none, max_outliers := none,
    checks := [{ tolerance := 0, max_outliers := 0,
                 filter := some (.pred { key := "os", val := "plan9" }) }],
    trigger := .lastFrame }

/-- A comparison on the manual (`FsCommand`) trigger. -/
def cmpManual : ImageComparison :=
  { tolerance := none, max_outliers := none, checks := [], trigger := .fsCommand }

/-- Options with three comparisons all sharing the manual trigger. -/
def optsManual3 : TestOptions :=
  { image_comparisons := [("a", cmpManual), ("b", cmpManual), ("c", cmpManual)] }

/-! ### Helper lemmas: the image difference engine -/

theorem calc_difference_self (x : Nat) : calc_difference x x = 0 := by
  simp [calc_difference]

/-- The outlier count over a whole-chunk buffer is the number of entries
strictly above the tolerance. -/
theorem outliers_eq_countP :
    ∀ (dd : List Nat) (t : Nat), dd.length % 4 = 0 →
      ImageComparison.calculate_outliers dd t = dd.countP (fun x => decide (t < x))
  | [], _, _ => rfl
  | [_], _, h => absurd h (by simp)
  | [_, _], _, h => absurd h (by simp)
  | [_, _, _], _, h => absurd h (by simp)
  | a :: b :: c :: d :: rest, t, h => by
      have hr : rest.length % 4 = 0 := by simp [List.length_cons] at h; omega
      rw [ImageComparison.calculate_outliers, outliers_eq_countP rest t hr]
      simp only [List.countP_cons, decide_eq_true_eq]
      split_ifs <;> omega

/-- On a whole-chunk non-empty buffer, `calculate_max_difference` does not
panic and returns the maximum entry of the buffer. -/
theorem maxdiff_spec :
    ∀ (dd : List Nat), dd ≠ [] → dd.length % 4 = 0 →
      ∃ m, ImageComparison.calculate_max_difference dd = some m ∧
        m ∈ dd ∧ ∀ x ∈ dd, x ≤ m
  | [], h, _ => absurd rfl h
  | [_], _, h => absurd h (by simp)
  | [_, _], _, h => absurd h (by simp)
  | [_, _, _], _, h => absurd h (by simp)
  | a :: b :: c :: d :: rest, _, h => by
      have hr : rest.length % 4 = 0 := by simp [List.length_cons] at h; omega
      have hquad : ∀ x : Nat, x = a ∨ x = b ∨ x = c ∨ x = d →
          x ∈ a :: b :: c :: d :: rest := by
        intro x hx
        rcases hx with rfl | rfl | rfl | rfl <;> simp
      have h4 : max (max (max a b) c) d = a ∨ max (max (max a b) c) d = b ∨
          max (max (max a b) c) d = c ∨ max (max (max a b) c) d = d := by
        rcases max_choice (max (max a b) c) d with h1 | h1 <;> rw [h1]
        · rcases max_choice (max a b) c with h2 | h2 <;> rw [h2]
          · rcases max_choice a b with h3 | h3 <;> rw [h3]
            · exact Or.inl rfl
            · exact Or.inr (Or.inl rfl)
          · exact Or.inr (Or.inr (Or.inl rfl))
        · exact Or.inr (Or.inr (Or.inr rfl))
      have hub4 : ∀ x : Nat, x = a ∨ x = b ∨ x = c ∨ x = d →
          x ≤ max (max (max a b) c) d := by
        intro x hx
        rcases hx with rfl | rfl | rfl | rfl <;> simp [le_max_iff]
      by_cases hre : rest = []
      · subst hre
        refine ⟨max (max (max a b) c) d,
          by simp [ImageComparison.calculate_max_difference], hquad _ h4, ?_⟩
        intro x hx
        simp only [List.mem_cons, List.not_mem_nil, or_false] at hx
        exact hub4 x hx
      · obtain ⟨m2, hm2, hmem2, hub2⟩ := maxdiff_spec rest hre hr
        refine ⟨max (max (max (max a b) c) d) m2, ?_, ?_, ?_⟩
        · simp [ImageComparison.calculate_max_difference, hm2]
        · rcases max_choice (max (max (max a b) c) d) m2 with h1 | h1 <;> rw [h1]
          · exact hquad _ h4
          · simp [hmem2]
        · intro x hx
          simp only [List.mem_cons] at hx
          rcases hx with rfl | rfl | rfl | rfl | hx
          · exact le_max_of_le_left (hub4 _ (Or.inl rfl))
          · exact le_max_of_le_left (hub4 _ (Or.inr (Or.inl rfl)))
          · exact le_max_of_le_left (hub4 _ (Or.inr (Or.inr (Or.inl rfl))))
          · exact le_max_of_le_left (hub4 _ (Or.inr (Or.inr (Or.inr rfl))))
          · exact le_max_of_le_right (hub2 x hx)

/-- The difference of a buffer with itself is all zeros. -/
theorem diffBytes_self :
    ∀ (l : List Nat), l.length % 4 = 0 → diffBytes l l = List.replicate l.length 0
  | [], _ => rfl
  | [_], h => absurd h (by simp)
  | [_, _], h => absurd h (by simp)
  | [_, _, _], h => absurd h (by simp)
  | a :: b :: c :: d :: rest, h => by
      have hr : rest.length % 4 = 0 := by simp [List.length_cons] at h; omega
      rw [diffBytes, diffBytes_self rest hr]
      simp [calc_difference_self, List.replicate_succ]

/-- An all-zero buffer has no outliers at any tolerance. -/
theorem outliers_replicate_zero (n t : Nat) (hn : n % 4 = 0) :
    ImageComparison.calculate_outliers (List.replicate n 0) t = 0 := by
  rw [outliers_eq_countP _ t (by simp [hn])]
  rw [List.countP_eq_zero]
  intro x hx
  rw [List.eq_of_mem_replicate hx]
  simp

/-- The maximum of a non-empty all-zero buffer is zero. -/
theorem maxdiff_replicate_zero (n : Nat) (hn : n % 4 = 0) (hne : n ≠ 0) :
    ImageComparison.calculate_max_difference (List.replicate n 0) = some 0 := by
  obtain ⟨m, hm, hmem, -⟩ :=
    maxdiff_spec (List.replicate n 0) (by simp [hne]) (by simp [hn])
  rw [List.eq_of_mem_replicate hmem] at hm
  exact hm

/-! ### Helper lemmas: validation -/

theorem countTrigger_nil (t : ImageTrigger) : countTrigger [] t = 0 := rfl

theorem countTrigger_cons_self (n : String) (c : ImageComparison)
    (rest : List (String × ImageComparison)) :
    countTrigger ((n, c) :: rest) c.trigger = countTrigger rest c.trigger + 1 := by
  simp [countTrigger, List.countP_cons]

theorem countTrigger_cons_ne (n : String) (c : ImageComparison)
    (rest : List (String × ImageComparison)) (t : ImageTrigger)
    (h : ¬(c.trigger = t)) :
    countTrigger ((n, c) :: rest) t = countTrigger rest t := by
  simp [countTrigger, List.countP_cons, h]

theorem validateLoop_ok_iff :
    ∀ (l : List (String × ImageComparison)) (seen : List ImageTrigger),
      validateLoop seen l = .ok () ↔
        ∀ t : ImageTrigger, t ≠ .fsCommand →
          countTrigger l t + (if t ∈ seen then 1 else 0) ≤ 1
  | [], seen => by
      constructor
      · intro _ t _
        rw [countTrigger_nil]
        split <;> omega
      · intro _
        rfl
  | (n, c) :: rest, seen => by
      rw [validateLoop]
      by_cases hfs : c.trigger = ImageTrigger.fsCommand
      · rw [if_neg (by simp [hfs]), if_neg (by simp [hfs])]
        rw [validateLoop_ok_iff rest seen]
        constructor <;> intro H t ht <;>
          have hne : ¬(c.trigger = t) := by rw [hfs]; exact fun hh => ht hh.symm
        · rw [countTrigger_cons_ne n c rest t hne]
          exact H t ht
        · have h2 := H t ht
          rw [countTrigger_cons_ne n c rest t hne] at h2
          exact h2
      · by_cases hseen : c.trigger ∈ seen
        · rw [if_pos ⟨hfs, hseen⟩]
          constructor
          · intro hcontra
            exact absurd hcontra (by simp)
          · intro H
            exfalso
            have h2 := H c.trigger hfs
            rw [countTrigger_cons_self, if_pos hseen] at h2
            omega
        · rw [if_neg (fun hc => hseen hc.2), if_pos hfs]
          rw [validateLoop_ok_iff rest (c.trigger :: seen)]
          constructor <;> intro H t ht
          · by_cases htc : t = c.trigger
            · subst htc
              have h2 := H c.trigger ht
              rw [if_pos (List.mem_cons_self _ _)] at h2
              rw [countTrigger_cons_self, if_neg hseen]
              omega
            · have hne : ¬(c.trigger = t) := fun hh => htc hh.symm
              have h2 := H t ht
              rw [countTrigger_cons_ne n c rest t hne]
              by_cases hts : t ∈ seen
              · rw [if_pos (List.mem_cons_of_mem _ hts)] at h2
                rw [if_pos hts]
                omega
              · rw [if_neg (by simp [List.mem_cons, htc, hts])] at h2
                rw [if_neg hts]
                omega
          · by_cases htc : t = c.trigger
            · subst htc
              have h2 := H c.trigger ht
              rw [countTrigger_cons_self, if_neg hseen] at h2
              rw [if_pos (List.mem_cons_self _ _)]
              omega
            · have hne : ¬(c.trigger = t) := fun hh => htc hh.symm
              have h2 := H t ht
              rw [countTrigger_cons_ne n c rest t hne] at h2
              by_cases hts : t ∈ seen
              · rw [if_pos hts] at h2
                rw [if_pos (List.mem_cons_of_mem _ hts)]
                omega
              · rw [if_neg hts] at h2
                rw [if_neg (by simp [List.mem_cons, htc, hts])]
                omega

theorem validateLoop_error :
    ∀ (l : List (String × ImageComparison)) (seen : List ImageTrigger)
      (t : ImageTrigger),
      validateLoop seen l = .error (.duplicateTrigger t) →
      t ≠ .fsCommand ∧ 2 ≤ countTrigger l t + (if t ∈ seen then 1 else 0)
  | [], _, _ => by
      intro hcontra
      exact absurd hcontra (by simp [validateLoop])
  | (n, c) :: rest, seen, t => by
      rw [validateLoop]
      by_cases hcond : c.trigger ≠ ImageTrigger.fsCommand ∧ c.trigger ∈ seen
      · rw [if_pos hcond]
        intro he
        have heq : c.trigger = t :=
          ValidateError.duplicateTrigger.inj (Except.error.inj he)
        subst heq
        refine ⟨hcond.1, ?_⟩
        rw [countTrigger_cons_self, if_pos hcond.2]
        omega
      · rw [if_neg hcond]
        intro he
        obtain ⟨h1, h2⟩ := validateLoop_error rest _ t he
        refine ⟨h1, ?_⟩
        by_cases hfs : c.trigger = ImageTrigger.fsCommand
        · have hseteq :
              (if c.trigger ≠ ImageTrigger.fsCommand then c.trigger :: seen else seen) =
                seen :=
            if_neg (by simp [hfs])
          rw [hseteq] at h2
          have hne : ¬(c.trigger = t) := by rw [hfs]; exact fun hh => h1 hh.symm
          rw [countTrigger_cons_ne n c rest t hne]
          exact h2
        · rw [if_pos hfs] at h2
          by_cases htc : t = c.trigger
          · subst htc
            rw [if_pos (List.mem_cons_self _ _)] at h2
            have hseen : c.trigger ∉ seen := fun hm => hcond ⟨hfs, hm⟩
            rw [countTrigger_cons_self, if_neg hseen]
            omega
          · have hne : ¬(c.trigger = t) := fun hh => htc hh.symm
            rw [countTrigger_cons_ne n c rest t hne]
            by_cases hts : t ∈ seen
            · rw [if_pos (List.mem_cons_of_mem _ hts)] at h2
              rw [if_pos hts]
              omega
            · rw [if_neg (by simp [List.mem_cons, htc, hts])] at h2
              rw [if_neg hts]
              omega

/-! ### Helper lemmas: the per-check loop -/

/-- If every remaining check is gated off by a filter that evaluates to
`false`, the loop ends with the no-checks-executed error and writes nothing. -/
theorem runChecks_all_skipped (env : HostEnv) (name : String)
    (differenceData : List Nat) (isAlphaDifferent knownFailure : Bool) :
    ∀ (l : List ImageComparisonCheck) (i : Nat),
      (∀ ch ∈ l, ∃ f, ch.filter = some f ∧ TestExpression.evaluate env f = .ok false) →
      runChecks env name differenceData isAlphaDifferent knownFailure l i false =
        (.err (.noChecksExecuted name), [])
  | [], _, _ => rfl
  | ch :: rest, i, H => by
      obtain ⟨f, hf, hval⟩ := H ch (by simp)
      rw [runChecks, hf]
      simp only [hval]
      exact runChecks_all_skipped env name differenceData isAlphaDifferent
        knownFailure rest (i + 1) (fun ch2 h2 => H ch2 (by simp [h2]))

/-- A single unfiltered check on a non-empty all-zero difference buffer
passes, so the loop succeeds without writing anything. -/
theorem runChecks_zero_buffer (env : HostEnv) (name : String)
    (isAlphaDifferent knownFailure : Bool) (tol mo n i : Nat)
    (hn : n % 4 = 0) (hne : n ≠ 0) :
    runChecks env name (List.replicate n 0) isAlphaDifferent knownFailure
      [{ tolerance := tol, max_outliers := mo, filter := none }] i false =
      (.ok, []) := by
  rw [runChecks]
  simp only [outliers_replicate_zero n tol hn, maxdiff_replicate_zero n hn hne]
  rw [if_pos (Nat.zero_le mo)]
  rfl

/-! ### Claim theorems -/

/-- C1: the outlier count of a difference buffer counts, across all pixels and
all four channels independently, the channel samples strictly exceeding the
tolerance (so one pixel contributes up to 4); on the 2×2 pair differing only
in one blue channel by 10, tolerance 5 / max-outliers 0 yields outlier count 1
and a failing comparison, while tolerance 15 yields 0 outliers and a passing
comparison. -/
theorem C1_outliers_per_channel :
    (∀ (dd : List Nat) (t : Nat), dd.length % 4 = 0 →
        ImageComparison.calculate_outliers dd t =
          dd.countP (fun x => decide (t < x))) ∧
    (∀ (a b c d t : Nat), ImageComparison.calculate_outliers [a, b, c, d] t ≤ 4) ∧
    cmpSimple5.test hostLinux "capture" imgActual2x2 imgExpected2x2 false =
      (.err (.checkFailed "capture" 0 1 0 10), [.actualImage, .differenceColor]) ∧
    cmpSimple15.test hostLinux "capture" imgActual2x2 imgExpected2x2 false =
      (.ok, []) := by
  refine ⟨outliers_eq_countP, ?_, by decide, by decide⟩
  intro a b c d t
  simp only [ImageComparison.calculate_outliers]
  split_ifs <;> omega

theorem C1_outliers_per_channel_witness :
    ImageComparison.calculate_outliers [0, 0, 10, 0] 5 =
      List.countP (fun x => decide (5 < x)) [0, 0, 10, 0] :=
  C1_outliers_per_channel.1 [0, 0, 10, 0] 5 (by decide)

/-- C2: a comparison with a simple field set and a non-empty checks list fails
every run on equal-dimension images with the both-simple-and-advanced error
(no artifacts written, never silently preferring one mode), while load-time
validation accepts a document containing it (the error is comparison-time,
not validate-time). -/
theorem C2_mixed_mode_always_errors :
    ∀ (c : ImageComparison) (env : HostEnv) (name : String)
      (actual expected : RgbaImage) (kf : Bool),
      (c.tolerance ≠ none ∨ c.max_outliers ≠ none) → c.checks ≠ [] →
      actual.width = expected.width → actual.height = expected.height →
      c.test env name actual expected kf =
        (.err (.bothSimpleAndAdvanced name), []) ∧
      TestOptions.validate { image_comparisons := [(name, c)] } = .ok () := by
  intro c env name actual expected kf hsimple hchecks hw hh
  constructor
  · simp only [ImageComparison.test]
    rw [if_neg (by simp [hw, hh])]
    have hres : c.resolveChecks =
        .error "Both simple and advanced checks are defined" := by
      rw [ImageComparison.resolveChecks]
      have h1 : (c.tolerance.isSome || c.max_outliers.isSome) = true := by
        rcases hsimple with h | h <;> simp [Option.isSome_iff_ne_none, h]
      have h2 : c.checks.isEmpty = false := by
        cases hc : c.checks with
        | nil => exact absurd hc hchecks
        | cons a l => exact List.isEmpty_cons
      rw [if_pos (by simp [h1, h2])]
    rw [hres]
  · simp [TestOptions.validate, validateLoop]

theorem C2_mixed_mode_always_errors_witness :
    cmpMixed.test hostLinux "mixed" imgActual2x2 imgExpected2x2 false =
      (.err (.bothSimpleAndAdvanced "mixed"), []) ∧
    TestOptions.validate { image_comparisons := [("mixed", cmpMixed)] } = .ok () :=
  C2_mixed_mode_always_errors cmpMixed hostLinux "mixed" imgActual2x2
    imgExpected2x2 false (by decide) (by decide) (by decide) (by decide)

/-- C3: in advanced mode on equal-dimension images, if the gating expression of every
expression evaluates to `false`, the comparison fails with the explicit
no-checks-executed error (writing nothing) rather than silently passing; in
particular a comparison whose sole check is gated off always fails this
way. -/
theorem C3_all_gated_off_errors :
    ∀ (c : ImageComparison) (env : HostEnv) (name : String)
      (actual expected : RgbaImage) (kf : Bool),
      c.tolerance = none → c.max_outliers = none → c.checks ≠ [] →
      (∀ ch ∈ c.checks, ∃ f, ch.filter = some f ∧
          TestExpression.evaluate env f = .ok false) →
      actual.width = expected.width → actual.height = expected.height →
      c.test env name actual expected kf = (.err (.noChecksExecuted name), []) := by
  intro c env name actual expected kf htol hmo hchecks hgate hw hh
  simp only [ImageComparison.test]
  rw [if_neg (by simp [hw, hh])]
  obtain ⟨ch0, rest0, hcs⟩ : ∃ a l, c.checks = a :: l := by
    cases hc : c.checks with
    | nil => exact absurd hc hchecks
    | cons a l => exact ⟨a, l, rfl⟩
  have hres : c.resolveChecks = .ok (ch0 :: rest0) := by
    simp [ImageComparison.resolveChecks, htol, hmo, hcs]
  rw [hres]
  exact runChecks_all_skipped env name _ _ kf (ch0 :: rest0) 0 (hcs ▸ hgate)

theorem C3_all_gated_off_errors_witness :
    cmpGated.test hostLinux "gated" imgActual2x2 imgExpected2x2 false =
      (.err (.noChecksExecuted "gated"), []) :=
  C3_all_gated_off_errors cmpGated hostLinux "gated" imgActual2x2 imgExpected2x2
    false rfl rfl (by decide)
    (by
      intro ch hch
      simp only [cmpGated, List.mem_singleton] at hch
      subst hch
      exact ⟨.pred { key := "os", val := "plan9" }, rfl, by decide⟩)
    (by decide) (by decide)

/-- C4 (counterexample): the claim quantifies over every RGBA image, but on
the 0×0 image the simple-mode self-comparison hits the `.max().unwrap()` panic
instead of passing. -/
theorem C4_self_comparison_empty_counterexample :
    (ImageComparison.mk (some 0) (some 0) [] .lastFrame).test hostLinux "zero"
        imgEmpty imgEmpty false = (.panicked, []) ∧
    (ImageComparison.mk (some 0) (some 0) [] .lastFrame).test hostLinux "zero"
        imgEmpty imgEmpty false ≠ ((.ok : TestOutcome), []) := by
  decide

/-- C4 (amended): for every RGBA image with at least one pixel and every
simple-mode configuration, the self-difference buffer is all zeros, its
outlier count is 0 at every tolerance, and the comparison of the image
against itself passes (writing nothing) regardless of the configured
tolerance and max-outliers. -/
theorem C4_self_comparison_passes :
    ∀ (A : RgbaImage) (c : ImageComparison) (env : HostEnv) (name : String)
      (kf : Bool),
      c.checks = [] → A.data.length = 4 * A.width * A.height →
      1 ≤ A.width * A.height →
      (ImageComparison.calculate_difference_data A A).1 =
        List.replicate A.data.length 0 ∧
      (∀ t, ImageComparison.calculate_outliers
        (ImageComparison.calculate_difference_data A A).1 t = 0) ∧
      c.test env name A A kf = (.ok, []) := by
  intro A c env name kf hchecks hlen hpos
  have hlen2 : A.data.length = 4 * (A.width * A.height) := by
    rw [hlen]; ring
  have h4 : A.data.length % 4 = 0 := by omega
  have hdd : (ImageComparison.calculate_difference_data A A).1 =
      List.replicate A.data.length 0 := diffBytes_self A.data h4
  refine ⟨hdd, ?_, ?_⟩
  · intro t
    rw [hdd]
    exact outliers_replicate_zero _ t h4
  · simp only [ImageComparison.test]
    rw [if_neg (by simp)]
    have hres : c.resolveChecks =
        .ok [{ tolerance := c.tolerance.getD 0, max_outliers := c.max_outliers.getD 0,
               filter := none }] := by
      simp [ImageComparison.resolveChecks, hchecks]
    rw [hres, hdd]
    exact runChecks_zero_buffer env name _ kf _ _ _ 0 h4 (by omega)

theorem C4_self_comparison_passes_witness :
    (ImageComparison.calculate_difference_data imgActual2x2 imgActual2x2).1 =
      List.replicate imgActual2x2.data.length 0 ∧
    (∀ t, ImageComparison.calculate_outliers
      (ImageComparison.calculate_difference_data imgActual2x2 imgActual2x2).1 t = 0) ∧
    cmpSimple5.test hostLinux "self" imgActual2x2 imgActual2x2 false = (.ok, []) :=
  C4_self_comparison_passes imgActual2x2 cmpSimple5 hostLinux "self" false rfl
    (by decide) (by decide)

/-- C5: load-time validation succeeds exactly when no non-manual trigger kind
is used by two comparisons (any number may share the manual `FsCommand`
trigger), and a reported duplicate-trigger error names a non-manual trigger
actually used at least twice. -/
theorem C5_trigger_uniqueness :
    ∀ (o : TestOptions),
      (o.validate = .ok () ↔
        ∀ t : ImageTrigger, t ≠ .fsCommand →
          countTrigger o.image_comparisons t ≤ 1) ∧
      (∀ t, o.validate = .error (.duplicateTrigger t) →
        t ≠ .fsCommand ∧ 2 ≤ countTrigger o.image_comparisons t) := by
  intro o
  rw [TestOptions.validate]
  cases hl : o.image_comparisons with
  | nil =>
      constructor
      · simp [hl, countTrigger]
      · intro t he
        simp at he
  | cons p rest =>
      rw [if_pos (by simp)]
      constructor
      · rw [validateLoop_ok_iff]
        constructor <;> intro H t ht <;> have h2 := H t ht
        · rw [if_neg (List.not_mem_nil t)] at h2
          omega
        · rw [if_neg (List.not_mem_nil t)]
          omega
      · intro t he
        obtain ⟨h1, h2⟩ := validateLoop_error (p :: rest) [] t he
        rw [if_neg (List.not_mem_nil t)] at h2
        exact ⟨h1, by omega⟩

theorem C5_trigger_uniqueness_witness :
    TestOptions.validate optsManual3 = .ok () :=
  (C5_trigger_uniqueness optsManual3).1.mpr (by decide)

/-- C6: whenever the two images differ in width or height, the comparison
fails at the size-check stage with an error reporting both dimension pairs —
independently of the configured checks and of the pixel data, so before any
per-channel work — and the only artifact is the persisted actual image,
suppressed when the test is a known failure. -/
theorem C6_size_mismatch_fails_first :
    ∀ (c : ImageComparison) (env : HostEnv) (name : String)
      (actual expected : RgbaImage) (kf : Bool),
      actual.width ≠ expected.width ∨ actual.height ≠ expected.height →
      c.test env name actual expected kf =
        (.err (.sizeMismatch name expected.width expected.height
            actual.width actual.height),
         if kf then [] else [.actualImage]) := by
  intro c env name actual expected kf h
  simp only [ImageComparison.test]
  rw [if_pos h]

theorem C6_size_mismatch_fails_first_witness :
    cmpGated.test hostLinux "size" imgActual2x2 imgOne1x1 false =
      (.err (.sizeMismatch "size" 1 1 2 2), [.actualImage]) :=
  C6_size_mismatch_fails_first cmpGated hostLinux "size" imgActual2x2 imgOne1x1
    false (by decide)

/-- C7: `Approximations::compare` dispatches four ways on the presence of
epsilon and max-relative; `compare(1.0, 1.0)` succeeds under every one of the
four set/unset combinations (for any parameter values), `compare(1.0, 2.0)`
fails when epsilon = max-relative = 0.01 with an error carrying both values
and the configured parameters, and each dispatch arm applies the
corresponding relative-equality predicate. -/
theorem C7_approximation_dispatch :
    (∀ (eps mrel : Option ℚ),
        (Approximations.mk [] eps mrel).compare 1 1 = .ok ()) ∧
    (Approximations.mk [] (some (1/100)) (some (1/100))).compare 1 2 =
      .error { expected := 2, actual := 1, epsilon := some (1/100),
               max_relative := some (1/100) } ∧
    (∀ (pats : List String) (e m a b : ℚ),
        (Approximations.mk pats (some e) (some m)).compare a b =
          if relativeEqQ a b e m then .ok ()
          else .error { expected := b, actual := a, epsilon := some e,
                        max_relative := some m }) ∧
    (∀ (pats : List String) (e a b : ℚ),
        (Approximations.mk pats (some e) none).compare a b =
          if relativeEqQ a b e defaultMaxRelative then .ok ()
          else .error { expected := b, actual := a, epsilon := some e,
                        max_relative := none }) ∧
    (∀ (pats : List String) (m a b : ℚ),
        (Approximations.mk pats none (some m)).compare a b =
          if relativeEqQ a b defaultEpsilon m then .ok ()
          else .error { expected := b, actual := a, epsilon := none,
                        max_relative := some m }) ∧
    (∀ (pats : List String) (a b : ℚ),
        (Approximations.mk pats none none).compare a b =
          if relativeEqQ a b defaultEpsilon defaultMaxRelative then .ok ()
          else .error { expected := b, actual := a, epsilon := none,
                        max_relative := none }) := by
  refine ⟨?_, ?_, fun _ _ _ _ _ => rfl, fun _ _ _ _ => rfl,
    fun _ _ _ _ => rfl, fun _ _ _ => rfl⟩
  · intro eps mrel
    cases eps <;> cases mrel <;> simp [Approximations.compare, relativeEqQ]
  · have habs : |(1:ℚ) - 2| = 1 := by
      rw [show (1:ℚ) - 2 = -1 by norm_num, abs_neg, abs_one]
    have hfalse : relativeEqQ 1 2 (1/100) (1/100) = false := by
      rw [relativeEqQ, if_neg (by norm_num), if_neg (by rw [habs]; norm_num)]
      rw [habs, abs_one, show |(2:ℚ)| = 2 from abs_of_pos (by norm_num)]
      rw [max_eq_right (by norm_num : (1:ℚ) ≤ 2)]
      simp only [decide_eq_false_iff_not]
      norm_num
    simp only [Approximations.compare, hfalse]
    rfl

/-- C8: evaluating an expression whose predicates use only the recognised
keys (`os`, `arch`, `family`) yields a clean boolean — false when a
recognised predicate merely does not match the host — while any predicate
with an unrecognised key (e.g. `foo`) makes evaluation fail with an
unknown-predicate error instead of returning false. -/
theorem C8_expression_unknown_keys :
    (∀ (env : HostEnv) (e : CfgExpr),
        (∀ p ∈ e.preds, p.recognized = true) →
        TestExpression.evaluate env e = .ok (e.evalB env)) ∧
    (∀ (env : HostEnv) (e : CfgExpr) (p : CfgPred),
        p ∈ e.preds → p.recognized = false →
        ∃ q, q ∈ e.preds ∧ q.recognized = false ∧
          TestExpression.evaluate env e = .error (.unknownPredicate q)) ∧
    TestExpression.evaluate hostLinux (.pred { key := "os", val := "aarch64" }) =
      .ok false ∧
    TestExpression.evaluate hostLinux (.pred { key := "foo", val := "bar" }) =
      .error (.unknownPredicate { key := "foo", val := "bar" }) := by
  refine ⟨?_, ?_, by decide, by decide⟩
  · intro env e h
    rw [TestExpression.evaluate]
    have hnil : e.unknownPreds = [] := by
      rw [CfgExpr.unknownPreds, List.filter_eq_nil_iff]
      intro p hp
      simp [h p hp]
    rw [hnil]
    rfl
  · intro env e p hp hrec
    have hne : e.unknownPreds ≠ [] := by
      intro h0
      have hmem : p ∈ e.unknownPreds :=
        (List.mem_filter.mpr ⟨hp, by simp [hrec]⟩ :
          p ∈ e.preds.filter (fun q => !q.recognized))
      rw [h0] at hmem
      exact absurd hmem (List.not_mem_nil p)
    have hql : e.unknownPreds.getLast? = some (e.unknownPreds.getLast hne) :=
      List.getLast?_eq_getLast_of_ne_nil hne
    have hqmem : e.unknownPreds.getLast hne ∈
        e.preds.filter (fun q => !q.recognized) :=
      List.getLast_mem hne
    have hqc := List.mem_filter.mp hqmem
    refine ⟨e.unknownPreds.getLast hne, hqc.1, by simpa using hqc.2, ?_⟩
    rw [TestExpression.evaluate, hql]

theorem C8_expression_unknown_keys_witness :
    TestExpression.evaluate hostLinux
        (.all (.pred { key := "os", val := "linux" })
          (.pred { key := "family", val := "unix" })) =
      .ok ((CfgExpr.all (.pred { key := "os", val := "linux" })
          (.pred { key := "family", val := "unix" })).evalB hostLinux) :=
  C8_expression_unknown_keys.1 hostLinux _ (by decide)

/-- C9: on a non-empty difference buffer (images with at least one pixel, so
the buffer length is a positive multiple of 4), `calculate_max_difference`
returns `some` of the maximum single-channel difference over the whole buffer
— its `unwrap` panic branch is unreachable — while on the empty buffer of a
zero-size image it hits that branch. -/
theorem C9_max_difference_nonempty :
    (∀ (dd : List Nat), dd ≠ [] → dd.length % 4 = 0 →
        ∃ m, ImageComparison.calculate_max_difference dd = some m ∧
          m ∈ dd ∧ ∀ x ∈ dd, x ≤ m) ∧
    ImageComparison.calculate_max_difference [] = none :=
  ⟨maxdiff_spec, rfl⟩

theorem C9_max_difference_nonempty_witness :
    ∃ m, ImageComparison.calculate_max_difference [1, 2, 9, 4] = some m ∧
      m ∈ ([1, 2, 9, 4] : List Nat) ∧ ∀ x ∈ ([1, 2, 9, 4] : List Nat), x ≤ m :=
  C9_max_difference_nonempty.1 [1, 2, 9, 4] (by decide) (by decide)

/-- C10: on a non-empty whole-chunk difference buffer, the outlier count at
tolerance `t` is zero exactly when the maximum single-channel difference is
at most `t`; and with byte-valued entries, tolerance 255 always yields zero
outliers. -/
theorem C10_zero_outliers_iff_max_le :
    ∀ (dd : List Nat) (t : Nat), dd ≠ [] → dd.length % 4 = 0 →
      (∃ m, ImageComparison.calculate_max_difference dd = some m ∧
        (ImageComparison.calculate_outliers dd t = 0 ↔ m ≤ t)) ∧
      ((∀ x ∈ dd, x < 256) →
        ImageComparison.calculate_outliers dd 255 = 0) := by
  intro dd t hne h4
  obtain ⟨m, hm, hmem, hub⟩ := maxdiff_spec dd hne h4
  constructor
  · refine ⟨m, hm, ?_⟩
    rw [outliers_eq_countP dd t h4, List.countP_eq_zero]
    constructor
    · intro H
      have h2 : ¬(t < m) := by simpa using H m hmem
      omega
    · intro hle x hx
      have h2 := hub x hx
      simp only [decide_eq_true_eq]
      omega
  · intro hb
    rw [outliers_eq_countP dd 255 h4, List.countP_eq_zero]
    intro x hx
    have h2 := hb x hx
    simp only [decide_eq_true_eq]
    omega

theorem C10_zero_outliers_iff_max_le_witness :
    (∃ m, ImageComparison.calculate_max_difference [0, 0, 10, 0] = some m ∧
      (ImageComparison.calculate_outliers [0, 0, 10, 0] 5 = 0 ↔ m ≤ 5)) ∧
    ((∀ x ∈ ([0, 0, 10, 0] : List Nat), x < 256) →
      ImageComparison.calculate_outliers [0, 0, 10, 0] 255 = 0) :=
  C10_zero_outliers_iff_max_le [0, 0, 10, 0] 5 (by decide) (by decide)

end Ruffle
